import Mathlib

/-!
Shallow embedding of the `/transcribe` request pipeline of `app.py`
(render_whisper repository).

The pipeline receives an uploaded file (bytes plus an optional filename and
an optional language code), stores it to a fresh temporary path whose suffix
is derived from the filename (`os.path.splitext(file.filename)[1] or ".mp3"`),
invokes the external speech model, drains the resulting segment sequence into
a list of `{id, start, end, text}` records, raises a 400 when no segments were
produced, optionally calls the external translation service when the detected
language is in `["hi", "ur", "unknown"]`, assembles the JSON result, and in a
`finally` block best-effort deletes the temporary file.

External collaborators (the speech model, the translation service, the
filesystem write, the fresh temporary name chosen by `tempfile`) are modelled
as oracle fields of an `Env` record; the handler itself is a pure function of
that record, mirroring the Python control flow statement by statement.
Python floats carry no arithmetic in this code (they are only converted,
stored and compared), so they are modelled as rationals.
-/

/-- A Python attribute value as seen by `float(...)`: either a value that
converts to a float (carrying the resulting numeric value), or a present but
non-convertible value (carrying the message of the `ValueError`/`TypeError`
that `float(...)` raises on it). -/
inductive PyVal where
  | num (q : ℚ)
  | nonNum (msg : String)
deriving DecidableEq, Repr

/-- A raw segment object produced by the speech model, as probed by
`getattr(segment, "start"/"end"/"text", default)`: each attribute may be
absent (`none`). -/
structure RawSegment where
  start? : Option PyVal
  end? : Option PyVal
  text? : Option String
deriving DecidableEq, Repr

/-- The model info object, as probed by `getattr(info, "language", "unknown")`
and `getattr(info, "duration", None)`. -/
structure RawInfo where
  language? : Option String
  duration? : Option ℚ
deriving DecidableEq, Repr

/-- One element of the produced `segments` list:
`{"id": i, "start": float(...), "end": float(...), "text": seg_text}`. -/
structure Segment where
  id : Nat
  start : ℚ
  end_ : ℚ
  text : String
deriving DecidableEq, Repr

/-- The success result document built at lines 109-117 of `app.py`
(`info` is flattened into its two fields). -/
structure ResultDoc where
  original_text : String
  translated_text : String
  segments : List Segment
  info_language : String
  info_duration : Option ℚ
deriving DecidableEq, Repr

/-- An HTTP-level response: either a 200 with the result document, or an
`HTTPException` with a status code and a detail string. -/
inductive Response where
  | success (doc : ResultDoc)
  | httpError (status : Nat) (detail : String)
deriving DecidableEq, Repr

/-- Index of the last occurrence of `c` in the character list, if any
(Python `str.rfind`, restricted to single characters). -/
def lastIdxOf (c : Char) : List Char → Option Nat
  | [] => none
  | x :: xs =>
    match lastIdxOf c xs with
    | some i => some (i + 1)
    | none => if x = c then some 0 else none

/-- `posixpath.splitext(p)[1]`: the extension of `p`, i.e. the substring from
the last dot of the basename, provided some earlier character of the basename
is not a dot (leading dots of the basename never start an extension). -/
def splitextExt (p : String) : String :=
  let l := p.data
  match lastIdxOf '.' l with
  | none => ""
  | some d =>
    let s : Nat :=
      match lastIdxOf '/' l with
      | none => 0
      | some i => i + 1
    if s ≤ d ∧ ((l.drop s).take (d - s)).any (fun c => c ≠ '.') then
      String.mk (l.drop d)
    else ""

/-- Line 54 of `app.py`: `os.path.splitext(file.filename)[1] or ".mp3"`
(the empty string is the only falsy extension). -/
def suffixFor (filename : String) : String :=
  let ext := splitextExt filename
  if ext = "" then ".mp3" else ext

/-- Python `str.strip()` with no argument: remove leading and trailing
whitespace characters. Defined by structural recursion on the character list
so that it evaluates inside the kernel. -/
def pyStrip (s : String) : String :=
  String.mk ((s.data.dropWhile Char.isWhitespace).reverse.dropWhile Char.isWhitespace).reverse

/-- Python `sep.join(parts)`: the parts interleaved with `sep`, every part
contributing a token — including empty strings. -/
def pyJoin (sep : String) : List String → String
  | [] => ""
  | [s] => s
  | s :: rest => s ++ sep ++ pyJoin sep rest

/-- `float(getattr(segment, attr, 0))`: an absent attribute defaults to `0`
(whose float conversion is `0.0`); a present numeric value converts to its
value; a present non-convertible value raises. -/
def pyFloat : Option PyVal → Except String ℚ
  | none => Except.ok 0
  | some (PyVal.num q) => Except.ok q
  | some (PyVal.nonNum msg) => Except.error msg

/-- The drain loop at lines 84-93 of `app.py`, started at index `i`: for each
raw segment, trim its text (defaulting a missing `text` to `""`), convert
`start` and `end` (defaulting missing ones to `0`), assign the running index
as `id`, and accumulate both the segment record and the text part. A float
conversion failure aborts the whole loop (the exception propagates). -/
def drainFrom (i : Nat) : List RawSegment → Except String (List Segment × List String)
  | [] => Except.ok ([], [])
  | r :: rest =>
    let t := pyStrip (r.text?.getD "")
    match pyFloat r.start? with
    | Except.error m => Except.error m
    | Except.ok s =>
      match pyFloat r.end? with
      | Except.error m => Except.error m
      | Except.ok e =>
        match drainFrom (i + 1) rest with
        | Except.error m => Except.error m
        | Except.ok (segs, parts) => Except.ok (⟨i, s, e, t⟩ :: segs, t :: parts)

/-- The trigger set at line 102 of `app.py`: `["hi", "ur", "unknown"]`. -/
def triggerLangs : List String := ["hi", "ur", "unknown"]

/-- Lines 101-107 of `app.py`: `translated_text` starts as `final_text`; when
the detected language is in the trigger set, the translation service is
called and its output (or, if it raises, the unchanged `final_text`) becomes
`translated_text`. Returns the text together with whether the service was
invoked. -/
def postProcess (translate : String → Except String String)
    (detected : String) (finalText : String) : String × Bool :=
  if detected ∈ triggerLangs then
    match translate finalText with
    | Except.ok t => (t, true)
    | Except.error _ => (finalText, true)
  else (finalText, false)

/-- The oracle record for one request: the request inputs plus the behaviour
of every external collaborator the handler consults, so that the handler is a
pure function of it. -/
structure Env where
  filename : Option String
  language : Option String
  tmpName : String
  createOk : Bool
  writeOk : Bool
  model : Except String (List RawSegment × RawInfo)
  translate : String → Except String String
  removeOk : Bool

/-- Outcome of the `try` body (lines 52-119): a normal return of the result
document, a raised `HTTPException`, or a generic exception with its message. -/
inductive BodyOut where
  | ok (doc : ResultDoc)
  | http (status : Nat) (detail : String)
  | exc (msg : String)
deriving Repr

/-- State of the `try` body when it exits: its outcome, the value of the
`tmp_path` variable, whether the temporary file exists on disk at that
point, and whether the translation service was invoked. -/
structure BodyResult where
  out : BodyOut
  tmpPath : Option String
  tmpExists : Bool
  translateCalled : Bool

/-- The `try` body of `transcribe` (lines 52-119 of `app.py`). `tmp_path`
starts as `None`; `os.path.splitext` raises a `TypeError` when the filename
is `None`; `NamedTemporaryFile(suffix=suffix, delete=False)` creates the file
on disk and sets `tmp_path` before `tmp.write` runs, so a failed write still
leaves the path set and the file present; the `os.path.exists` check at line
59 reads the actual file state; the model call, the drain loop, the
empty-segments 400, the join-and-strip, and the conditional translation then
follow the source order. -/
def tryBody (env : Env) : BodyResult :=
  match env.filename with
  | none =>
    { out := BodyOut.exc "expected str, bytes or os.PathLike object, not NoneType",
      tmpPath := none, tmpExists := false, translateCalled := false }
  | some fname =>
    if env.createOk = false then
      { out := BodyOut.exc "could not create temporary file",
        tmpPath := none, tmpExists := false, translateCalled := false }
    else
      let tmpPath := env.tmpName ++ suffixFor fname
      if env.writeOk = false then
        { out := BodyOut.exc "write failed",
          tmpPath := some tmpPath, tmpExists := true, translateCalled := false }
      else
        if (true : Bool) = false then
          { out := BodyOut.http 500 "Temporary file not saved correctly.",
            tmpPath := some tmpPath, tmpExists := true, translateCalled := false }
        else
          match env.model with
          | Except.error msg =>
            { out := BodyOut.exc msg,
              tmpPath := some tmpPath, tmpExists := true, translateCalled := false }
          | Except.ok (raws, info) =>
            let detected := info.language?.getD "unknown"
            match drainFrom 0 raws with
            | Except.error msg =>
              { out := BodyOut.exc msg,
                tmpPath := some tmpPath, tmpExists := true, translateCalled := false }
            | Except.ok (segs, parts) =>
              if segs.isEmpty then
                { out := BodyOut.http 400 "No speech detected in the audio.",
                  tmpPath := some tmpPath, tmpExists := true, translateCalled := false }
              else
                let finalText := pyStrip (pyJoin " " parts)
                let pp := postProcess env.translate detected finalText
                { out := BodyOut.ok
                    { original_text := finalText, translated_text := pp.1,
                      segments := segs, info_language := detected,
                      info_duration := info.duration? },
                  tmpPath := some tmpPath, tmpExists := true, translateCalled := pp.2 }

/-- Everything observable about one completed request: the HTTP response,
the temporary path that was used (if any), whether that path still exists
after the `finally` block, whether the delete was attempted, and whether the
translation service was invoked. -/
structure Outcome where
  response : Response
  tmpPath : Option String
  tmpExistsAfter : Bool
  removeAttempted : Bool
  translateCalled : Bool

/-- The whole `transcribe` handler (lines 48-130 of `app.py`): run the `try`
body; re-raise an `HTTPException` unchanged; wrap any other exception into a
500 with detail `"Transcription failed: " ++ msg`; then, in the `finally`
block, if `tmp_path` is set and the file exists, attempt `os.remove` —
a successful remove deletes the file, a failing remove is swallowed and
leaves the file in place; either way the response is unchanged. -/
def transcribe (env : Env) : Outcome :=
  let b := tryBody env
  let response :=
    match b.out with
    | BodyOut.ok doc => Response.success doc
    | BodyOut.http status detail => Response.httpError status detail
    | BodyOut.exc msg => Response.httpError 500 ("Transcription failed: " ++ msg)
  let attempt := b.tmpPath.isSome && b.tmpExists
  let existsAfter :=
    if attempt then (if env.removeOk then false else true) else b.tmpExists
  { response := response, tmpPath := b.tmpPath, tmpExistsAfter := existsAfter,
    removeAttempted := attempt, translateCalled := b.translateCalled }

/-- The float value the drain loop extracts from an attribute when the
conversion does not raise: the numeric value when present, `0` when absent. -/
def floatVal : Option PyVal → ℚ
  | some (PyVal.num q) => q
  | _ => 0

/-- Whether `float(...)` succeeds on this attribute: it does unless the
attribute is present and non-convertible. -/
def floatOk : Option PyVal → Bool
  | some (PyVal.nonNum _) => false
  | _ => true

/-- The segment list the drain loop produces (starting at index `n`) when no
float conversion raises. -/
def drainOkSpec (n : Nat) : List RawSegment → List Segment
  | [] => []
  | r :: rest =>
    ⟨n, floatVal r.start?, floatVal r.end?, pyStrip (r.text?.getD "")⟩ :: drainOkSpec (n + 1) rest

/-- The join described by the specification claim for `original_text`: a
space-join of the trimmed texts in which empty strings contribute no token
(`"no extra spacing"`). Stated from the spec wording, to be compared against
what the code computes. -/
def specJoinNonEmpty (parts : List String) : String :=
  pyJoin " " (parts.filter (fun s => s ≠ ""))

lemma pyFloat_eq_of_ok (o : Option PyVal) (h : floatOk o = true) :
    pyFloat o = Except.ok (floatVal o) := by
  cases o with
  | none => rfl
  | some v =>
    cases v with
    | num q => rfl
    | nonNum m => simp [floatOk] at h

lemma pyFloat_ok_val (o : Option PyVal) (q : ℚ) (h : pyFloat o = Except.ok q) :
    q = floatVal o ∧ floatOk o = true := by
  cases o with
  | none =>
    simp [pyFloat] at h
    simp [floatVal, floatOk, h]
  | some v =>
    cases v with
    | num q' =>
      simp [pyFloat] at h
      simp [floatVal, floatOk, h]
    | nonNum m => simp [pyFloat] at h

lemma drainFrom_ok_eq (raws : List RawSegment) (n : Nat) (segs : List Segment)
    (parts : List String) (h : drainFrom n raws = Except.ok (segs, parts)) :
    segs = drainOkSpec n raws ∧ parts = segs.map Segment.text := by
  induction raws generalizing n segs parts with
  | nil =>
    simp [drainFrom] at h
    simp [drainOkSpec, h.1, h.2]
  | cons r rest ih =>
    rw [drainFrom] at h
    cases hs : pyFloat r.start? with
    | error m => simp [hs] at h
    | ok s =>
      cases he : pyFloat r.end? with
      | error m => simp [hs, he] at h
      | ok e =>
        cases hd : drainFrom (n + 1) rest with
        | error m => simp [hs, he, hd] at h
        | ok pr =>
          obtain ⟨segs', parts'⟩ := pr
          simp [hs, he, hd] at h
          obtain ⟨h1, h2⟩ := ih (n + 1) segs' parts' hd
          obtain ⟨hsv, _⟩ := pyFloat_ok_val _ _ hs
          obtain ⟨hev, _⟩ := pyFloat_ok_val _ _ he
          subst hsv hev h1 h2
          simp [← h.1, ← h.2, drainOkSpec]

lemma drainFrom_ok_of_all (raws : List RawSegment) (n : Nat)
    (h : ∀ r ∈ raws, floatOk r.start? = true ∧ floatOk r.end? = true) :
    drainFrom n raws =
      Except.ok (drainOkSpec n raws, (drainOkSpec n raws).map Segment.text) := by
  induction raws generalizing n with
  | nil => rfl
  | cons r rest ih =>
    obtain ⟨h1, h2⟩ := h r (List.mem_cons_self r rest)
    rw [drainFrom, pyFloat_eq_of_ok _ h1, pyFloat_eq_of_ok _ h2,
      ih (n + 1) (fun r' hr' => h r' (List.mem_cons_of_mem r hr'))]
    simp [drainOkSpec]

lemma drainOkSpec_length (raws : List RawSegment) (n : Nat) :
    (drainOkSpec n raws).length = raws.length := by
  induction raws generalizing n with
  | nil => rfl
  | cons r rest ih => simp [drainOkSpec, ih]

lemma drainOkSpec_get_id (raws : List RawSegment) (n : Nat) (i : Nat)
    (hi : i < (drainOkSpec n raws).length) :
    ((drainOkSpec n raws).get ⟨i, hi⟩).id = n + i := by
  induction raws generalizing n i with
  | nil => simp [drainOkSpec] at hi
  | cons r rest ih =>
    cases i with
    | zero => simp [drainOkSpec]
    | succ j =>
      have hj : j < (drainOkSpec (n + 1) rest).length := by
        simpa [drainOkSpec] using hi
      have hid := ih (n + 1) j hj
      simp only [drainOkSpec, List.get_cons_succ] at hid ⊢
      omega

lemma pyStrip_empty : pyStrip "" = "" := rfl

lemma drainOkSpec_zip (raws : List RawSegment) (n : Nat) :
    ∀ p ∈ (drainOkSpec n raws).zip raws,
      p.1.text = pyStrip (p.2.text?.getD "") ∧
      (p.2.start? = none → p.1.start = 0) ∧
      (p.2.end? = none → p.1.end_ = 0) ∧
      (p.2.text? = none → p.1.text = "") := by
  induction raws generalizing n with
  | nil => simp [drainOkSpec]
  | cons r rest ih =>
    intro p hp
    simp only [drainOkSpec, List.zip_cons_cons, List.mem_cons] at hp
    cases hp with
    | inl h =>
      subst h
      refine ⟨rfl, ?_, ?_, ?_⟩
      · intro h0; simp at h0; simp [floatVal, h0]
      · intro h0; simp at h0; simp [floatVal, h0]
      · intro h0; simp at h0; simp [h0, pyStrip_empty]
    | inr h => exact ih (n + 1) p h

lemma drainOkSpec_mem (raws : List RawSegment) (n : Nat) (s : Segment)
    (h : s ∈ drainOkSpec n raws) :
    ∃ r ∈ raws, s.start = floatVal r.start? ∧ s.end_ = floatVal r.end? := by
  induction raws generalizing n with
  | nil => simp [drainOkSpec] at h
  | cons r rest ih =>
    simp only [drainOkSpec, List.mem_cons] at h
    cases h with
    | inl h => exact ⟨r, List.mem_cons_self r rest, by simp [h]⟩
    | inr h =>
      obtain ⟨r', hr', h1, h2⟩ := ih (n + 1) h
      exact ⟨r', List.mem_cons_of_mem r hr', h1, h2⟩

lemma floatOk_false_elim (o : Option PyVal) (h : floatOk o = false) :
    ∃ m, o = some (PyVal.nonNum m) := by
  cases o with
  | none => simp [floatOk] at h
  | some v =>
    cases v with
    | num q => simp [floatOk] at h
    | nonNum m => exact ⟨m, rfl⟩

lemma drainFrom_error_of_bad (raws : List RawSegment) (n : Nat)
    (h : ∃ r ∈ raws, floatOk r.start? = false ∨ floatOk r.end? = false) :
    ∃ m, drainFrom n raws = Except.error m := by
  induction raws generalizing n with
  | nil => simp at h
  | cons r rest ih =>
    cases hfs : floatOk r.start? with
    | false =>
      obtain ⟨m, hm⟩ := floatOk_false_elim _ hfs
      exact ⟨m, by simp [drainFrom, hm, pyFloat]⟩
    | true =>
      cases hfe : floatOk r.end? with
      | false =>
        obtain ⟨m, hm⟩ := floatOk_false_elim _ hfe
        refine ⟨m, ?_⟩
        rw [drainFrom]
        simp only [pyFloat_eq_of_ok _ hfs]
        simp [hm, pyFloat]
      | true =>
        have hrest : ∃ r' ∈ rest, floatOk r'.start? = false ∨ floatOk r'.end? = false := by
          obtain ⟨r', hr', hbad⟩ := h
          rcases List.mem_cons.mp hr' with heq | hmem
          · subst heq
            cases hbad with
            | inl hb => rw [hfs] at hb; cases hb
            | inr hb => rw [hfe] at hb; cases hb
          · exact ⟨r', hmem, hbad⟩
        obtain ⟨m, hm⟩ := ih (n + 1) hrest
        refine ⟨m, ?_⟩
        rw [drainFrom]
        simp only [pyFloat_eq_of_ok _ hfs, pyFloat_eq_of_ok _ hfe, hm]

lemma postProcess_snd (tr : String → Except String String) (detected t : String) :
    (postProcess tr detected t).2 = decide (detected ∈ triggerLangs) := by
  by_cases h : detected ∈ triggerLangs
  · cases htr : tr t <;> simp [postProcess, h, htr]
  · simp [postProcess, h]

lemma postProcess_not_mem (tr : String → Except String String) (detected t : String)
    (h : detected ∉ triggerLangs) : postProcess tr detected t = (t, false) := by
  simp [postProcess, h]

lemma postProcess_err (tr : String → Except String String) (detected t m : String)
    (h : detected ∈ triggerLangs) (he : tr t = Except.error m) :
    postProcess tr detected t = (t, true) := by
  simp [postProcess, h, he]

lemma tryBody_success (env : Env) (f : String) (raws : List RawSegment)
    (info : RawInfo) (segs : List Segment) (parts : List String)
    (hf : env.filename = some f) (hc : env.createOk = true) (hw : env.writeOk = true)
    (hm : env.model = Except.ok (raws, info))
    (hd : drainFrom 0 raws = Except.ok (segs, parts))
    (hne : segs.isEmpty = false) :
    tryBody env =
      { out := BodyOut.ok
          { original_text := pyStrip (pyJoin " " parts),
            translated_text :=
              (postProcess env.translate (info.language?.getD "unknown")
                (pyStrip (pyJoin " " parts))).1,
            segments := segs,
            info_language := info.language?.getD "unknown",
            info_duration := info.duration? },
        tmpPath := some (env.tmpName ++ suffixFor f), tmpExists := true,
        translateCalled :=
          (postProcess env.translate (info.language?.getD "unknown")
            (pyStrip (pyJoin " " parts))).2 } := by
  simp [tryBody, hf, hc, hw, hm, hd, hne]

lemma tryBody_empty (env : Env) (f : String) (info : RawInfo)
    (hf : env.filename = some f) (hc : env.createOk = true) (hw : env.writeOk = true)
    (hm : env.model = Except.ok ([], info)) :
    tryBody env =
      { out := BodyOut.http 400 "No speech detected in the audio.",
        tmpPath := some (env.tmpName ++ suffixFor f), tmpExists := true,
        translateCalled := false } := by
  simp [tryBody, hf, hc, hw, hm, drainFrom]

lemma tryBody_exists_eq_isSome (env : Env) :
    (tryBody env).tmpExists = (tryBody env).tmpPath.isSome := by
  unfold tryBody
  split
  · rfl
  · split
    · rfl
    · split
      · rfl
      · split
        · rfl
        · split
          · rfl
          · split
            · rfl
            · split
              · rfl
              · rfl

lemma tryBody_out_indep (env : Env) (t : String) (b : Bool) :
    (tryBody { env with tmpName := t, removeOk := b }).out = (tryBody env).out := by
  unfold tryBody
  split <;> rename_i heq <;> simp only [] at heq ⊢
  · simp [heq]
  · rename_i fname
    simp only [heq]
    split
    · rfl
    · split
      · rfl
      · split
        · rfl
        · split
          · rfl
          · rename_i raws info
            split
            · rfl
            · split
              · rfl
              · rfl

lemma tryBody_translateCalled_indep (env : Env) (t : String) (b : Bool) :
    (tryBody { env with tmpName := t, removeOk := b }).translateCalled =
      (tryBody env).translateCalled := by
  unfold tryBody
  split <;> rename_i heq <;> simp only [] at heq ⊢
  · simp [heq]
  · rename_i fname
    simp only [heq]
    split
    · rfl
    · split
      · rfl
      · split
        · rfl
        · split
          · rfl
          · rename_i raws info
            split
            · rfl
            · split
              · rfl
              · rfl

lemma drainOkSpec_map_id (raws : List RawSegment) (n : Nat) :
    (drainOkSpec n raws).map Segment.id = List.range' n raws.length := by
  induction raws generalizing n with
  | nil => simp [drainOkSpec]
  | cons r rest ih => simp [drainOkSpec, List.range'_succ, ih]

lemma tryBody_tmpPath_of_created (env : Env) (f : String)
    (hf : env.filename = some f) (hc : env.createOk = true) :
    (tryBody env).tmpPath = some (env.tmpName ++ suffixFor f) := by
  unfold tryBody
  rw [hf]
  simp only [hc]
  repeat' split
  all_goals first
    | rfl
    | (rename_i hcontra; simp at hcontra)

/-- C1 (amended): for every request whose transcription yields at least one
segment, the returned `original_text` equals the strip of the space-join of
every segment's trimmed text in `id` order, where an empty-text segment
contributes an empty token to the join (so an interior empty text produces a
doubled space; only leading and trailing whitespace is removed by the final
strip), while still appearing in the `segments` list. -/
theorem c1_original_text_full_join (env : Env) (f : String) (raws : List RawSegment)
    (info : RawInfo) (segs : List Segment) (parts : List String)
    (hf : env.filename = some f) (hc : env.createOk = true) (hw : env.writeOk = true)
    (hm : env.model = Except.ok (raws, info))
    (hd : drainFrom 0 raws = Except.ok (segs, parts))
    (hne : segs.isEmpty = false) :
    ∃ doc, (transcribe env).response = Response.success doc ∧
      doc.segments = segs ∧
      doc.original_text = pyStrip (pyJoin " " (doc.segments.map Segment.text)) ∧
      doc.segments.map Segment.id = List.range doc.segments.length := by
  have ht := tryBody_success env f raws info segs parts hf hc hw hm hd hne
  obtain ⟨hsegs, hparts⟩ := drainFrom_ok_eq raws 0 segs parts hd
  have hresp : (transcribe env).response = Response.success
      { original_text := pyStrip (pyJoin " " parts),
        translated_text :=
          (postProcess env.translate (info.language?.getD "unknown")
            (pyStrip (pyJoin " " parts))).1,
        segments := segs,
        info_language := info.language?.getD "unknown",
        info_duration := info.duration? } := by
    simp [transcribe, ht]
  refine ⟨_, hresp, rfl, ?_, ?_⟩
  · show pyStrip (pyJoin " " parts) = pyStrip (pyJoin " " (segs.map Segment.text))
    rw [hparts]
  · show segs.map Segment.id = List.range segs.length
    rw [hsegs, drainOkSpec_map_id, drainOkSpec_length, List.range_eq_range']

def rawsW1 : List RawSegment :=
  [⟨some (PyVal.num 0), some (PyVal.num 2), some " hello "⟩,
   ⟨some (PyVal.num 2), some (PyVal.num 4), some "world"⟩]

def envW1 : Env :=
  { filename := some "a.wav", language := none, tmpName := "/tmp/t1",
    createOk := true, writeOk := true,
    model := Except.ok (rawsW1, ⟨some "en", some 4⟩),
    translate := fun s => Except.ok s, removeOk := true }

theorem c1_witness :
    ∃ doc, (transcribe envW1).response = Response.success doc ∧
      doc.segments = [⟨0, 0, 2, "hello"⟩, ⟨1, 2, 4, "world"⟩] ∧
      doc.original_text = pyStrip (pyJoin " " (doc.segments.map Segment.text)) ∧
      doc.segments.map Segment.id = List.range doc.segments.length :=
  c1_original_text_full_join envW1 "a.wav" rawsW1 ⟨some "en", some 4⟩
    [⟨0, 0, 2, "hello"⟩, ⟨1, 2, 4, "world"⟩] ["hello", "world"]
    rfl rfl rfl rfl rfl rfl

def envC1 : Env :=
  { filename := some "sample.wav", language := none, tmpName := "/tmp/t0",
    createOk := true, writeOk := true,
    model := Except.ok
      ([⟨some (PyVal.num 0), some (PyVal.num 2), some "hello"⟩,
        ⟨some (PyVal.num 2), some (PyVal.num 3), some "  "⟩,
        ⟨some (PyVal.num 3), some (PyVal.num 5), some "world"⟩],
       ⟨some "en", some 5⟩),
    translate := fun s => Except.ok s, removeOk := true }

/-- C1 as stated is false: with segment texts `"hello"`, `""` (from a
whitespace-only model text) and `"world"`, the code's
`" ".join(...)` keeps the empty token and produces `"hello  world"` with two
interior spaces, while the claimed empty-skipping join gives
`"hello world"`. -/
theorem c1_counterexample :
    ∃ doc, (transcribe envC1).response = Response.success doc ∧
      doc.segments.length ≥ 1 ∧
      doc.original_text = "hello  world" ∧
      specJoinNonEmpty (doc.segments.map Segment.text) = "hello world" ∧
      doc.original_text ≠ specJoinNonEmpty (doc.segments.map Segment.text) := by
  refine ⟨{ original_text := "hello  world", translated_text := "hello  world",
            segments := [⟨0, 0, 2, "hello"⟩, ⟨1, 2, 3, ""⟩, ⟨2, 3, 5, "world"⟩],
            info_language := "en", info_duration := some 5 }, ?_, ?_, ?_, ?_, ?_⟩
  · decide
  · decide
  · decide
  · decide
  · decide

/-- C2: when the model yields zero segments, the handler returns a 400 with
detail `"No speech detected in the audio."` and the translation service is
never invoked on that request. -/
theorem c2_empty_segments_400 (env : Env) (f : String) (info : RawInfo)
    (hf : env.filename = some f) (hc : env.createOk = true) (hw : env.writeOk = true)
    (hm : env.model = Except.ok ([], info)) :
    (transcribe env).response =
        Response.httpError 400 "No speech detected in the audio." ∧
    (transcribe env).translateCalled = false := by
  have ht := tryBody_empty env f info hf hc hw hm
  constructor <;> simp [transcribe, ht]

def envW2 : Env :=
  { filename := some "silent.mp3", language := none, tmpName := "/tmp/t2",
    createOk := true, writeOk := true,
    model := Except.ok ([], ⟨some "hi", some 3⟩),
    translate := fun s => Except.ok s, removeOk := true }

theorem c2_witness :
    (transcribe envW2).response =
        Response.httpError 400 "No speech detected in the audio." ∧
    (transcribe envW2).translateCalled = false :=
  c2_empty_segments_400 envW2 "silent.mp3" ⟨some "hi", some 3⟩ rfl rfl rfl rfl

/-- C3: for every request, whenever a temporary path was created the delete
step is attempted (`removeAttempted` equals `tmpPath.isSome` on every exit
path — success, 400, 500 or unexpected exception); when the delete succeeds
the temporary path no longer exists after the request; and the remove
outcome (success or swallowed failure) never changes the HTTP response. -/
theorem c3_cleanup_on_every_path (env : Env) (b : Bool) (h : env.removeOk = true) :
    (transcribe env).tmpExistsAfter = false ∧
    (transcribe env).removeAttempted = (transcribe env).tmpPath.isSome ∧
    (transcribe { env with removeOk := b }).response = (transcribe env).response := by
  have he := tryBody_exists_eq_isSome env
  refine ⟨?_, ?_, ?_⟩
  · cases hs : (tryBody env).tmpPath.isSome with
    | true => simp [transcribe, he, hs, h]
    | false => simp [transcribe, he, hs]
  · cases hs : (tryBody env).tmpPath.isSome with
    | true => simp [transcribe, he, hs]
    | false => simp [transcribe, he, hs]
  · have hout := tryBody_out_indep env env.tmpName b
    simp only [transcribe]
    rw [hout]

def envW3 : Env :=
  { filename := some "b.ogg", language := none, tmpName := "/tmp/t3",
    createOk := true, writeOk := true,
    model := Except.error "decode failed",
    translate := fun s => Except.ok s, removeOk := true }

theorem c3_witness :
    (transcribe envW3).tmpExistsAfter = false ∧
    (transcribe envW3).removeAttempted = (transcribe envW3).tmpPath.isSome ∧
    (transcribe { envW3 with removeOk := false }).response =
      (transcribe envW3).response :=
  c3_cleanup_on_every_path envW3 false rfl

/-- C4: on the success pipeline, the translation service is invoked exactly
when the detected language is in the trigger set `["hi", "ur", "unknown"]`;
for a detected language outside that set, the response is a success document
whose `translated_text` equals `original_text` exactly. -/
theorem c4_translation_trigger_set (env : Env) (f : String) (raws : List RawSegment)
    (info : RawInfo) (segs : List Segment) (parts : List String)
    (hf : env.filename = some f) (hc : env.createOk = true) (hw : env.writeOk = true)
    (hm : env.model = Except.ok (raws, info))
    (hd : drainFrom 0 raws = Except.ok (segs, parts))
    (hne : segs.isEmpty = false) :
    (transcribe env).translateCalled =
        decide ((info.language?.getD "unknown") ∈ triggerLangs) ∧
    ((info.language?.getD "unknown") ∉ triggerLangs →
      ∃ doc, (transcribe env).response = Response.success doc ∧
        doc.translated_text = doc.original_text) := by
  have ht := tryBody_success env f raws info segs parts hf hc hw hm hd hne
  constructor
  · simp [transcribe, ht, postProcess_snd]
  · intro hnot
    have hpp := postProcess_not_mem env.translate (info.language?.getD "unknown")
      (pyStrip (pyJoin " " parts)) hnot
    have hresp : (transcribe env).response = Response.success
        { original_text := pyStrip (pyJoin " " parts),
          translated_text := pyStrip (pyJoin " " parts),
          segments := segs,
          info_language := info.language?.getD "unknown",
          info_duration := info.duration? } := by
      simp [transcribe, ht, hpp]
    exact ⟨_, hresp, rfl⟩

def envW4 : Env :=
  { filename := some "c.wav", language := none, tmpName := "/tmp/t4",
    createOk := true, writeOk := true,
    model := Except.ok
      ([⟨some (PyVal.num 0), some (PyVal.num 1), some "bonjour"⟩], ⟨some "fr", some 1⟩),
    translate := fun _ => Except.ok "changed", removeOk := true }

theorem c4_witness :
    (transcribe envW4).translateCalled = decide (("fr" : String) ∈ triggerLangs) ∧
    ∃ doc, (transcribe envW4).response = Response.success doc ∧
      doc.translated_text = doc.original_text := by
  have h := c4_translation_trigger_set envW4 "c.wav"
    [⟨some (PyVal.num 0), some (PyVal.num 1), some "bonjour"⟩] ⟨some "fr", some 1⟩
    [⟨0, 0, 1, "bonjour"⟩] ["bonjour"] rfl rfl rfl rfl rfl rfl
  exact ⟨h.1, h.2 (by decide)⟩

/-- C5: on the success pipeline with a triggering detected language, if the
translation service raises, the failure is absorbed: the request still
returns a success response and `translated_text` falls back to
`original_text` unchanged (and the service was indeed invoked). -/
theorem c5_translation_failure_fallback (env : Env) (f : String)
    (raws : List RawSegment) (info : RawInfo) (segs : List Segment)
    (parts : List String) (m : String)
    (hf : env.filename = some f) (hc : env.createOk = true) (hw : env.writeOk = true)
    (hm : env.model = Except.ok (raws, info))
    (hd : drainFrom 0 raws = Except.ok (segs, parts))
    (hne : segs.isEmpty = false)
    (hin : (info.language?.getD "unknown") ∈ triggerLangs)
    (htr : env.translate (pyStrip (pyJoin " " parts)) = Except.error m) :
    (transcribe env).translateCalled = true ∧
    ∃ doc, (transcribe env).response = Response.success doc ∧
      doc.translated_text = doc.original_text := by
  have ht := tryBody_success env f raws info segs parts hf hc hw hm hd hne
  have hpp := postProcess_err env.translate (info.language?.getD "unknown")
    (pyStrip (pyJoin " " parts)) m hin htr
  constructor
  · simp [transcribe, ht, hpp]
  · have hresp : (transcribe env).response = Response.success
        { original_text := pyStrip (pyJoin " " parts),
          translated_text := pyStrip (pyJoin " " parts),
          segments := segs,
          info_language := info.language?.getD "unknown",
          info_duration := info.duration? } := by
      simp [transcribe, ht, hpp]
    exact ⟨_, hresp, rfl⟩

def envW5 : Env :=
  { filename := some "d.wav", language := none, tmpName := "/tmp/t5",
    createOk := true, writeOk := true,
    model := Except.ok
      ([⟨some (PyVal.num 0), some (PyVal.num 1), some "namaste"⟩], ⟨some "hi", some 1⟩),
    translate := fun _ => Except.error "network unreachable", removeOk := true }

theorem c5_witness :
    (transcribe envW5).translateCalled = true ∧
    ∃ doc, (transcribe envW5).response = Response.success doc ∧
      doc.translated_text = doc.original_text :=
  c5_translation_failure_fallback envW5 "d.wav"
    [⟨some (PyVal.num 0), some (PyVal.num 1), some "namaste"⟩] ⟨some "hi", some 1⟩
    [⟨0, 0, 1, "namaste"⟩] ["namaste"] "network unreachable"
    rfl rfl rfl rfl rfl rfl (by decide) rfl

/-- C6: when every present `start`/`end` attribute is float-convertible, the
drain loop succeeds (missing attributes never fail the request) and, for every
element in production order, the produced segment has `id` equal to its
zero-based position, `text` equal to the model text trimmed, and a missing
`start`, `end` or `text` attribute defaulted to `0.0`, `0.0` or `""`. -/
theorem c6_drain_defensive_defaults (raws : List RawSegment)
    (h : ∀ r ∈ raws, floatOk r.start? = true ∧ floatOk r.end? = true) :
    ∃ segs parts, drainFrom 0 raws = Except.ok (segs, parts) ∧
      segs.length = raws.length ∧
      segs.map Segment.id = List.range segs.length ∧
      ∀ p ∈ segs.zip raws,
        p.1.text = pyStrip (p.2.text?.getD "") ∧
        (p.2.start? = none → p.1.start = 0) ∧
        (p.2.end? = none → p.1.end_ = 0) ∧
        (p.2.text? = none → p.1.text = "") := by
  refine ⟨drainOkSpec 0 raws, (drainOkSpec 0 raws).map Segment.text,
    drainFrom_ok_of_all raws 0 h, drainOkSpec_length raws 0, ?_,
    drainOkSpec_zip raws 0⟩
  rw [drainOkSpec_map_id, drainOkSpec_length, List.range_eq_range']

def rawsW6 : List RawSegment :=
  [⟨none, none, none⟩,
   ⟨some (PyVal.num 1), some (PyVal.num 3), some "  hey "⟩]

theorem c6_witness :
    ∃ segs parts, drainFrom 0 rawsW6 = Except.ok (segs, parts) ∧
      segs.length = rawsW6.length ∧
      segs.map Segment.id = List.range segs.length ∧
      ∀ p ∈ segs.zip rawsW6,
        p.1.text = pyStrip (p.2.text?.getD "") ∧
        (p.2.start? = none → p.1.start = 0) ∧
        (p.2.end? = none → p.1.end_ = 0) ∧
        (p.2.text? = none → p.1.text = "") :=
  c6_drain_defensive_defaults rawsW6 (by decide)

def envC7 : Env :=
  { filename := some "e.wav", language := none, tmpName := "/tmp/t7",
    createOk := true, writeOk := true,
    model := Except.ok
      ([⟨some (PyVal.num 2), some (PyVal.num 1), some "hi there"⟩], ⟨some "en", none⟩),
    translate := fun s => Except.ok s, removeOk := true }

def docC7 : ResultDoc :=
  { original_text := "hi there", translated_text := "hi there",
    segments := [⟨0, 2, 1, "hi there"⟩], info_language := "en",
    info_duration := none }

/-- C7 as stated is false: the code copies the model-reported `start` and
`end` values without any ordering validation, so a model segment reporting
`start = 2.0, end = 1.0` yields a returned segment with `end < start`. -/
theorem c7_counterexample :
    (transcribe envC7).response = Response.success docC7 ∧
    ∃ s ∈ docC7.segments, ¬ (s.start ≤ s.end_) := by
  constructor
  · decide
  · exact ⟨⟨0, 2, 1, "hi there"⟩, by decide, by decide⟩

/-- C7 (amended): the produced segments satisfy
`end >= start >= 0` provided the model-reported values themselves do (taking
a missing attribute as its default `0`); the code enforces no ordering of its
own. -/
theorem c7_segment_order_amended (env : Env) (f : String) (raws : List RawSegment)
    (info : RawInfo) (segs : List Segment) (parts : List String)
    (hf : env.filename = some f) (hc : env.createOk = true) (hw : env.writeOk = true)
    (hm : env.model = Except.ok (raws, info))
    (hd : drainFrom 0 raws = Except.ok (segs, parts))
    (hne : segs.isEmpty = false)
    (hok : ∀ r ∈ raws, 0 ≤ floatVal r.start? ∧ floatVal r.start? ≤ floatVal r.end?) :
    ∃ doc, (transcribe env).response = Response.success doc ∧
      ∀ s ∈ doc.segments, 0 ≤ s.start ∧ s.start ≤ s.end_ := by
  have ht := tryBody_success env f raws info segs parts hf hc hw hm hd hne
  have hsegs := (drainFrom_ok_eq raws 0 segs parts hd).1
  have hresp : (transcribe env).response = Response.success
      { original_text := pyStrip (pyJoin " " parts),
        translated_text :=
          (postProcess env.translate (info.language?.getD "unknown")
            (pyStrip (pyJoin " " parts))).1,
        segments := segs,
        info_language := info.language?.getD "unknown",
        info_duration := info.duration? } := by
    simp [transcribe, ht]
  refine ⟨_, hresp, ?_⟩
  intro s hs
  have hs' : s ∈ drainOkSpec 0 raws := by rw [← hsegs]; exact hs
  obtain ⟨r, hr, h1, h2⟩ := drainOkSpec_mem raws 0 s hs'
  obtain ⟨hge, hle⟩ := hok r hr
  rw [h1, h2]
  exact ⟨hge, hle⟩

def envW7 : Env :=
  { filename := some "f.wav", language := none, tmpName := "/tmp/t7b",
    createOk := true, writeOk := true,
    model := Except.ok
      ([⟨some (PyVal.num 0), some (PyVal.num 2), some "ok"⟩], ⟨some "en", some 2⟩),
    translate := fun s => Except.ok s, removeOk := true }

theorem c7_witness :
    ∃ doc, (transcribe envW7).response = Response.success doc ∧
      ∀ s ∈ doc.segments, 0 ≤ s.start ∧ s.start ≤ s.end_ :=
  c7_segment_order_amended envW7 "f.wav"
    [⟨some (PyVal.num 0), some (PyVal.num 2), some "ok"⟩] ⟨some "en", some 2⟩
    [⟨0, 0, 2, "ok"⟩] ["ok"] rfl rfl rfl rfl rfl rfl (by decide)

/-- C8 (amended): for every upload whose filename is present, the temporary
artifact path is the fresh temporary name suffixed with the filename's
extension, or with `".mp3"` when the filename has no extension. (When the
filename is absent the request fails instead — see the counterexample.) -/
theorem c8_suffix_from_filename (env : Env) (f : String)
    (hf : env.filename = some f) (hc : env.createOk = true) :
    (transcribe env).tmpPath =
      some (env.tmpName ++ (if splitextExt f = "" then ".mp3" else splitextExt f)) := by
  have h := tryBody_tmpPath_of_created env f hf hc
  show (tryBody env).tmpPath = _
  rw [h]
  rfl

def envW8 : Env :=
  { filename := some "song", language := none, tmpName := "/tmp/t8",
    createOk := true, writeOk := true,
    model := Except.ok ([], ⟨none, none⟩),
    translate := fun s => Except.ok s, removeOk := true }

theorem c8_witness :
    (transcribe envW8).tmpPath =
      some (envW8.tmpName ++
        (if splitextExt "song" = "" then ".mp3" else splitextExt "song")) :=
  c8_suffix_from_filename envW8 "song" rfl rfl

def envC8 : Env :=
  { filename := none, language := none, tmpName := "/tmp/t8b",
    createOk := true, writeOk := true,
    model := Except.ok ([], ⟨none, none⟩),
    translate := fun s => Except.ok s, removeOk := true }

/-- C8 as stated is false for an absent filename: `os.path.splitext(None)`
raises a `TypeError` before any temporary file is created, so the request
fails with a 500 and no temporary artifact path (let alone one suffixed
`".mp3"`) ever exists. -/
theorem c8_counterexample :
    (transcribe envC8).tmpPath = none ∧
    (transcribe envC8).response =
      Response.httpError 500
        "Transcription failed: expected str, bytes or os.PathLike object, not NoneType" := by
  constructor
  · rfl
  · rfl

/-- C9: if any drained model segment carries a `start` or `end` attribute
that is present but not float-convertible, the conversion raises, the
exception escapes the loop and the whole request fails as a 500 whose detail
is the wrapped message — the defensive defaults apply only to absent
attributes. -/
theorem c9_bad_float_500 (env : Env) (f : String) (raws : List RawSegment)
    (info : RawInfo)
    (hf : env.filename = some f) (hc : env.createOk = true) (hw : env.writeOk = true)
    (hm : env.model = Except.ok (raws, info))
    (hbad : ∃ r ∈ raws,
      (∃ m, r.start? = some (PyVal.nonNum m)) ∨ (∃ m, r.end? = some (PyVal.nonNum m))) :
    ∃ m, (transcribe env).response =
      Response.httpError 500 ("Transcription failed: " ++ m) := by
  have hbad' : ∃ r ∈ raws, floatOk r.start? = false ∨ floatOk r.end? = false := by
    obtain ⟨r, hr, hcase⟩ := hbad
    refine ⟨r, hr, ?_⟩
    cases hcase with
    | inl h => obtain ⟨m, hm'⟩ := h; exact Or.inl (by simp [hm', floatOk])
    | inr h => obtain ⟨m, hm'⟩ := h; exact Or.inr (by simp [hm', floatOk])
  obtain ⟨m, hdrain⟩ := drainFrom_error_of_bad raws 0 hbad'
  refine ⟨m, ?_⟩
  have ht : tryBody env =
      { out := BodyOut.exc m, tmpPath := some (env.tmpName ++ suffixFor f),
        tmpExists := true, translateCalled := false } := by
    simp [tryBody, hf, hc, hw, hm, hdrain]
  simp [transcribe, ht]

def envW9 : Env :=
  { filename := some "g.wav", language := none, tmpName := "/tmp/t9",
    createOk := true, writeOk := true,
    model := Except.ok
      ([⟨some (PyVal.nonNum "could not convert string to float: x"), none, some "bad"⟩],
       ⟨some "en", none⟩),
    translate := fun s => Except.ok s, removeOk := true }

theorem c9_witness :
    ∃ m, (transcribe envW9).response =
      Response.httpError 500 ("Transcription failed: " ++ m) :=
  c9_bad_float_500 envW9 "g.wav"
    [⟨some (PyVal.nonNum "could not convert string to float: x"), none, some "bad"⟩]
    ⟨some "en", none⟩ rfl rfl rfl rfl
    ⟨_, List.mem_cons_self _ _, Or.inl ⟨_, rfl⟩⟩

/-- C10: the handler is deterministic given its inputs and collaborator
responses: two runs that share the upload (filename and bytes feed the very
same stored file and model call), the language parameter, the storage
outcome, the model response and the translation service may still differ in
the fresh temporary name chosen by `tempfile` and in whether the cleanup
delete succeeds — and they produce identical HTTP responses. -/
theorem c10_deterministic_response (env : Env) (t : String) (b : Bool) :
    (transcribe { env with tmpName := t, removeOk := b }).response =
      (transcribe env).response := by
  have h := tryBody_out_indep env t b
  simp only [transcribe]
  rw [h]
